import Mathlib

/-!
Verification of the deepgene Literature Evidence Pipeline.

Shallow embedding of the Python sources:
  * `src/py/deepgene/literature_fetcher.py` — `extract_pmid`,
    `fetch_pubmed_abstract`, `fetch_via_web_scrape`, `fetch_paper_content`;
  * `src/py/deepgene/mutant_extractor.py` — `MutantExtractor.extract_mutants`;
  * `src/py/deepgene/gene_lookup.py` — `enhance_literature_with_extractions`.

External effects (HTTP transport, XML/HTML parsing by `requests`, `ElementTree`
and BeautifulSoup, and the DSPy text-understanding call) are modelled as
oracle inputs: the functions below receive the parsed data those libraries
would deliver, and every exception a library call can raise is an explicit
outcome constructor.  Machine-level details that the claims do not touch
(Unicode category subtleties of `\d`/`strip`, Python `repr` escaping of
non-printable characters) are modelled by their ASCII behaviour.
-/

set_option maxRecDepth 20000

/-! ### Python primitive helpers -/

/-- Python slicing `s[:n]` on a `str` (first `n` code points). -/
def pyTrunc (s : String) (n : Nat) : String := (s.toList.take n).asString

/-- Python `s.strip()`: remove leading and trailing whitespace. -/
def pyStrip (s : String) : String :=
  (((s.toList.dropWhile Char.isWhitespace).reverse.dropWhile Char.isWhitespace).reverse).asString

/-- Python `sep.join(parts)`. -/
def pyJoin (sep : String) : List String → String
  | [] => ""
  | [x] => x
  | x :: y :: xs => x ++ sep ++ pyJoin sep (y :: xs)

/-- Python `repr` of a `str` (quote choice as in CPython; escape sequences for
non-printable characters are not modelled). -/
def pyReprStr (s : String) : String :=
  if s.toList.contains '\'' && !(s.toList.contains '"') then "\"" ++ s ++ "\""
  else ("'".toList ++
    (s.toList.map (fun c => if c = '\'' then ['\\', '\''] else [c])).flatten ++ "'".toList).asString

/-- Python `str` of a list of strings, e.g. `str(['a', 'b']) = "['a', 'b']"`. -/
def pyStrList (l : List String) : String :=
  "[" ++ pyJoin ", " (l.map pyReprStr) ++ "]"

/-- Python `needle in hay` on character lists (contiguous substring test). -/
def isInfixB (needle : List Char) : List Char → Bool
  | [] => needle.isEmpty
  | c :: cs => needle.isPrefixOf (c :: cs) || isInfixB needle cs

/-! ### `literature_fetcher.extract_pmid` (lines 43–64)

`re.search(pat, url)` for the four patterns, each of which is a literal
followed by `(\d+)`: scan left to right; at the first position where the
literal matches and at least one digit follows, capture the maximal digit
run.  `\d` is modelled as an ASCII digit. -/

/-- Attempt the regex `lit(\d+)` anchored at the head of `s`: the literal
`lit` must be a prefix and at least one digit must follow; the capture group
is the maximal digit run. -/
def tryAt (lit s : List Char) : Option (List Char) :=
  if lit.isPrefixOf s then
    let ds := (s.drop lit.length).takeWhile Char.isDigit
    if ds.isEmpty then none else some ds
  else none

/-- `re.search` for the regex `lit(\d+)`: leftmost match wins. -/
def reSearch (lit : List Char) : List Char → Option (List Char)
  | [] => tryAt lit []
  | c :: cs =>
    match tryAt lit (c :: cs) with
    | some ds => some ds
    | none => reSearch lit cs

/-- Pattern `pubmed\.ncbi\.nlm\.nih\.gov/(\d+)` (standard article view). -/
def pmidPat1 : List Char := "pubmed.ncbi.nlm.nih.gov/".toList

/-- Pattern `ncbi\.nlm\.nih\.gov/pubmed/(\d+)` (legacy view). -/
def pmidPat2 : List Char := "ncbi.nlm.nih.gov/pubmed/".toList

/-- Pattern `ncbi\.nlm\.nih\.gov/m/pubmed/(\d+)` (mobile view). -/
def pmidPat3 : List Char := "ncbi.nlm.nih.gov/m/pubmed/".toList

/-- Pattern `/pubmed/(\d+)` (bare path). -/
def pmidPat4 : List Char := "/pubmed/".toList

/-- `extract_pmid(url)`: try the four patterns in order, return the first
capture (`match.group(1)`), else `None`. -/
def extract_pmid (url : String) : Option String :=
  match reSearch pmidPat1 url.toList with
  | some ds => some ds.asString
  | none =>
  match reSearch pmidPat2 url.toList with
  | some ds => some ds.asString
  | none =>
  match reSearch pmidPat3 url.toList with
  | some ds => some ds.asString
  | none =>
  match reSearch pmidPat4 url.toList with
  | some ds => some ds.asString
  | none => none

/-! ### `literature_fetcher.fetch_pubmed_abstract` (lines 67–116)

The HTTP call and `ET.fromstring` are external; the function is modelled on
the parsed list of `AbstractText` elements.  Each element contributes its
`Label` attribute (`.get('Label', '')`, so `""` when absent) and the
concatenation of its text nodes (`''.join(itertext())`). -/

/-- One `AbstractText` element of the parsed E-utilities response. -/
structure AbstractSeg where
  label : String
  raw : String

/-- Lines 93–99: the string appended to `abstract_parts` for one segment. -/
def segPart (seg : AbstractSeg) : String :=
  let text := pyStrip seg.raw
  if seg.label = "" then text else seg.label ++ ": " ++ text

/-- Lines 91–106: build `abstract_parts`, and if non-empty return the
space-join truncated to 2000 characters, else `None`. -/
def fetch_pubmed_abstract (segs : List AbstractSeg) : Option String :=
  if (segs.map segPart).isEmpty then none
  else some (pyTrunc (pyJoin " " (segs.map segPart)) 2000)

/-! ### `literature_fetcher.fetch_via_web_scrape` (lines 119–175)

The HTTP call and BeautifulSoup are external; the parsed page is modelled by
the results of exactly the queries the function makes: for each of the four
element selectors, the `get_text(strip=True)` of
`soup.find('div', sel) or soup.find('section', sel) or soup.find('p', sel)`
(`none` when no element matches); the `content` attribute of
`soup.find('meta', {'name': 'dc.description'})` (`none` when there is no such
tag or it has no `content` attribute); and the list `soup.find_all('p')`. -/

/-- One `<p>` element as observed by the fallback scan: its stripped text,
its `class` attribute (`p.get('class', [])`) and its parent's `class`
attribute (`p.parent.get('class', [])`). -/
structure Para where
  text : String
  classes : List String
  parentClasses : List String

/-- The parsed page, at the granularity of the queries in lines 138–159. -/
structure ScrapeSoup where
  selClassAbstract : Option String
  selClassAbstractContent : Option String
  selIdAbstract : Option String
  selClassSectionAbstract : Option String
  metaDcDescription : Option String
  paragraphs : List Para

/-- Lines 152–156: an element selector yields a result only when the found
element's text is strictly longer than 100 characters. -/
def selCheck (found : Option String) : Option String :=
  match found with
  | none => none
  | some t => if t.length > 100 then some (pyTrunc t 2000) else none

/-- Lines 147–150: the meta selector returns any truthy (non-empty)
`content` attribute, with no length filter. -/
def metaCheck (content : Option String) : Option String :=
  match content with
  | none => none
  | some c => if c = "" then none else some (pyTrunc c 2000)

/-- Line 161: the fallback acceptance test for one paragraph.  Note both
membership tests are case-sensitive: `'abstract' in p.get('class', [])` is
exact token membership, and `'abstract' in str(p.parent.get('class', []))`
is a substring test on the `str` of the class list. -/
def paraMatch (p : Para) : Bool :=
  decide (p.text.length > 100) &&
    (p.classes.contains "abstract" ||
      isInfixB "abstract".toList (pyStrList p.parentClasses).toList)

/-- Lines 159–162: scan paragraphs, return the first accepted one truncated
to 2000 characters. -/
def scrapeFallback : List Para → Option String
  | [] => none
  | p :: ps => if paraMatch p then some (pyTrunc p.text 2000) else scrapeFallback ps

/-- Lines 146–156: the priority-selector pass, in source order (the meta
selector is last in `abstract_selectors`). -/
def trySelectors (soup : ScrapeSoup) : Option String :=
  match selCheck soup.selClassAbstract with
  | some r => some r
  | none =>
  match selCheck soup.selClassAbstractContent with
  | some r => some r
  | none =>
  match selCheck soup.selIdAbstract with
  | some r => some r
  | none =>
  match selCheck soup.selClassSectionAbstract with
  | some r => some r
  | none => metaCheck soup.metaDcDescription

/-- Lines 136–165: selector pass, then the fallback over the first 5
paragraphs (`paragraphs[:5]`), else `None`. -/
def fetch_via_web_scrape (soup : ScrapeSoup) : Option String :=
  match trySelectors soup with
  | some r => some r
  | none => scrapeFallback (soup.paragraphs.take 5)

/-! ### `mutant_extractor.MutantExtractor.extract_mutants` (lines 46–62)

The DSPy call `self.extractor(text=text_sample)` is an oracle; its outcome
distinguishes every case the Python code distinguishes: the call raises, or
`result.mutants` is a falsy non-list value (`None`, …), a truthy non-list
value, or a list. -/

/-- Outcome of the underlying text-understanding call. -/
inductive NerOutcome where
  | raises
  | absent
  | nonList
  | list (ms : List String)
deriving DecidableEq

/-- `extract_mutants(text)`: guard on empty/short input, truncate to 2000
characters, call the oracle, keep only a truthy list result; every failure
path returns `[]`. -/
def extract_mutants (call : String → NerOutcome) (text : String) : List String :=
  if text = "" ∨ text.length < 10 then []
  else
    match call (pyTrunc text 2000) with
    | .raises => []
    | .absent => []
    | .nonList => []
    | .list ms => if ms.isEmpty then [] else ms

/-! ### `gene_lookup.enhance_literature_with_extractions` (lines 77–111)

`LiteratureInfo` keeps the three fields the pipeline reads.  The content
fetcher and the mention extractor are oracle parameters (in the source they
are `fetch_paper_content` and the shared `MutantExtractor`); a retrieval
strategy that raises is modelled by `FetchOutcome.raises`, which
`fetch_paper_content` (lines 29–40) converts to `None`. -/

/-- The fields of `LiteratureInfo` used by the pipeline; `url` is the string
form `str(lit.url)`. -/
structure LiteratureInfo where
  functional_relevance : String
  mutants : List String
  url : String

/-- Outcome of one retrieval strategy (structured retrieval or scraping):
either it raises an exception or it returns `Option String`. -/
inductive FetchOutcome where
  | raises
  | ok (content : Option String)
deriving DecidableEq

/-- `fetch_paper_content` (lines 29–40): run the selected strategy; any
exception is caught and converted to `None`. -/
def fetch_paper_content (strat : String → FetchOutcome) (url : String) : Option String :=
  match strat url with
  | .raises => none
  | .ok c => c

/-- Line 105: `list(set(lit.mutants + extracted_mutants))`, modelled as
`dedup` of the concatenation — an order-canonical duplicate-free list with
the same membership as the Python set (the Python list order is
unspecified, and no claim depends on it). -/
def mergeMutants (orig extracted : List String) : List String :=
  (orig ++ extracted).dedup

/-- Lines 100–109: the per-citation body of the loop.  `if content:` is
Python truthiness, so an empty string also skips extraction. -/
def enhanceOne (fetch : String → Option String) (extract : String → List String)
    (lit : LiteratureInfo) : LiteratureInfo :=
  match fetch lit.url with
  | none => lit
  | some content =>
    if content = "" then lit
    else { lit with mutants := mergeMutants lit.mutants (extract content) }

/-- Lines 98–111: process each citation in order and collect the results. -/
def enhance_literature_with_extractions (fetch : String → Option String)
    (extract : String → List String) (literature : List LiteratureInfo) :
    List LiteratureInfo :=
  literature.map (enhanceOne fetch extract)

/-! ### Helper lemmas -/

theorem str_toList_append (a b : String) : (a ++ b).toList = a.toList ++ b.toList := by
  cases a; cases b; rfl

theorem pyTrunc_length_le (s : String) (n : Nat) : (pyTrunc s n).length ≤ n := by
  simp only [pyTrunc, List.length_asString, List.length_take]
  exact Nat.min_le_left n _

theorem pyTrunc_of_length_le (s : String) (n : Nat) (h : s.length ≤ n) :
    pyTrunc s n = s := by
  have h' : s.toList.length ≤ n := h
  simp only [pyTrunc]
  rw [List.take_of_length_le h', String.asString_toList]

theorem enhanceOne_mutants_superset (fetch : String → Option String)
    (extract : String → List String) (lit : LiteratureInfo) (m : String)
    (hm : m ∈ lit.mutants) : m ∈ (enhanceOne fetch extract lit).mutants := by
  unfold enhanceOne
  split
  · exact hm
  · split
    · exact hm
    · simp only [mergeMutants, List.mem_dedup, List.mem_append]
      exact Or.inl hm

theorem enhanceOne_frame (fetch : String → Option String)
    (extract : String → List String) (lit : LiteratureInfo) :
    (enhanceOne fetch extract lit).url = lit.url ∧
      (enhanceOne fetch extract lit).functional_relevance = lit.functional_relevance := by
  unfold enhanceOne
  split
  · exact ⟨rfl, rfl⟩
  · split
    · exact ⟨rfl, rfl⟩
    · exact ⟨rfl, rfl⟩

theorem enhance_getElem? (fetch : String → Option String)
    (extract : String → List String) (lits : List LiteratureInfo) (i : Nat) :
    (enhance_literature_with_extractions fetch extract lits)[i]? =
      lits[i]?.map (enhanceOne fetch extract) := by
  simp [enhance_literature_with_extractions, List.getElem?_map]

/-! ### Claims C1, C2, C8, C9 — the Evidence Merger -/

/-- C1: for every fetcher and extractor behaviour, every mention present in
a citation's mentions list before `enhance_literature_with_extractions` is
still present in that citation's mentions list after it returns. -/
theorem C1_enhance_preserves_mentions (fetch : String → Option String)
    (extract : String → List String) (lits : List LiteratureInfo) (i : Nat)
    (lit : LiteratureInfo) (hi : lits[i]? = some lit) (m : String)
    (hm : m ∈ lit.mutants) :
    ∃ lit', (enhance_literature_with_extractions fetch extract lits)[i]? = some lit' ∧
      m ∈ lit'.mutants := by
  refine ⟨enhanceOne fetch extract lit, ?_, ?_⟩
  · rw [enhance_getElem?, hi]; rfl
  · exact enhanceOne_mutants_superset fetch extract lit m hm

/-- C1 witness. -/
theorem C1_enhance_preserves_mentions_witness :
    ∃ lit', (enhance_literature_with_extractions (fun _ => some "content text here")
      (fun _ => ["p.Val600Glu"]) [⟨"rel", ["V600E"], "https://example.com"⟩])[0]? = some lit' ∧
      "V600E" ∈ lit'.mutants :=
  C1_enhance_preserves_mentions (fun _ => some "content text here")
    (fun _ => ["p.Val600Glu"]) [⟨"rel", ["V600E"], "https://example.com"⟩] 0
    ⟨"rel", ["V600E"], "https://example.com"⟩ rfl "V600E" (by simp)

/-- C2: when the retrieval strategy for a citation's URL raises or returns
an absent result, that citation passes through `enhance` unchanged and its
result does not depend on the extractor (the Mention Extractor is not
invoked for it); moreover every citation of the call is processed
independently by the per-citation step (failure isolation).  The embedding
of `enhance` is a total function: no exception escapes. -/
theorem C2_fetch_failure_isolation (strat : String → FetchOutcome)
    (extract : String → List String) (lits : List LiteratureInfo) (i : Nat)
    (lit : LiteratureInfo) (hi : lits[i]? = some lit)
    (habs : strat lit.url = .raises ∨ strat lit.url = .ok none) :
    (enhance_literature_with_extractions (fetch_paper_content strat) extract lits)[i]? =
        some lit ∧
      (∀ extract' : String → List String,
        (enhance_literature_with_extractions (fetch_paper_content strat) extract' lits)[i]? =
          some lit) ∧
      (∀ j : Nat, ∀ litj : LiteratureInfo, lits[j]? = some litj →
        (enhance_literature_with_extractions (fetch_paper_content strat) extract lits)[j]? =
          some (enhanceOne (fetch_paper_content strat) extract litj)) := by
  have hfetch : fetch_paper_content strat lit.url = none := by
    rcases habs with h | h <;> simp [fetch_paper_content, h]
  have hone : ∀ extract' : String → List String,
      enhanceOne (fetch_paper_content strat) extract' lit = lit := by
    intro extract'
    unfold enhanceOne
    rw [hfetch]
  refine ⟨?_, ?_, ?_⟩
  · rw [enhance_getElem?, hi]
    exact congrArg some (hone extract)
  · intro extract'
    rw [enhance_getElem?, hi]
    exact congrArg some (hone extract')
  · intro j litj hj
    rw [enhance_getElem?, hj]
    rfl

/-- C2 witness. -/
theorem C2_fetch_failure_isolation_witness :
    (enhance_literature_with_extractions
        (fetch_paper_content (fun _ => .raises)) (fun _ => ["x"])
        [⟨"rel", ["rs12345"], "https://example.com/paper"⟩])[0]? =
      some ⟨"rel", ["rs12345"], "https://example.com/paper"⟩ :=
  (C2_fetch_failure_isolation (fun _ => .raises) (fun _ => ["x"])
    [⟨"rel", ["rs12345"], "https://example.com/paper"⟩] 0
    ⟨"rel", ["rs12345"], "https://example.com/paper"⟩ rfl (Or.inl rfl)).1

/-- C8: the per-citation merge is idempotent at the mention-set level, its
result is duplicate-free, its members are exactly the original and
extracted mentions, and each member occurs exactly once. -/
theorem C8_merge_idempotent (m e : List String) :
    (mergeMutants (mergeMutants m e) e).toFinset = (mergeMutants m e).toFinset ∧
      (mergeMutants m e).Nodup ∧
      (∀ x : String, x ∈ mergeMutants m e ↔ x ∈ m ∨ x ∈ e) ∧
      (∀ x : String, x ∈ m ∨ x ∈ e → (mergeMutants m e).count x = 1) := by
  have hmem : ∀ x : String, x ∈ mergeMutants m e ↔ x ∈ m ∨ x ∈ e := by
    intro x
    simp [mergeMutants]
  refine ⟨?_, List.nodup_dedup _, hmem, ?_⟩
  · ext x
    simp only [List.mem_toFinset, hmem, mergeMutants, List.mem_dedup, List.mem_append]
    tauto
  · intro x hx
    exact List.count_eq_one_of_mem (List.nodup_dedup _) ((hmem x).mpr hx)

/-- C8 witness. -/
theorem C8_merge_idempotent_witness :
    (mergeMutants ["V600E"] ["p.Val600Glu", "V600E"]).count "V600E" = 1 :=
  (C8_merge_idempotent ["V600E"] ["p.Val600Glu", "V600E"]).2.2.2 "V600E" (Or.inl (by simp))

/-- C9: `enhance_literature_with_extractions` returns a list of the same
length with the citations in the same order (position by position), and no
citation's URL or functional-relevance text is altered. -/
theorem C9_enhance_frame (fetch : String → Option String)
    (extract : String → List String) (lits : List LiteratureInfo) :
    (enhance_literature_with_extractions fetch extract lits).length = lits.length ∧
      ∀ i : Nat, ∀ lit : LiteratureInfo, lits[i]? = some lit →
        ∃ lit', (enhance_literature_with_extractions fetch extract lits)[i]? = some lit' ∧
          lit'.url = lit.url ∧
          lit'.functional_relevance = lit.functional_relevance := by
  constructor
  · simp [enhance_literature_with_extractions]
  · intro i lit hi
    refine ⟨enhanceOne fetch extract lit, ?_, enhanceOne_frame fetch extract lit⟩
    rw [enhance_getElem?, hi]; rfl

/-- C9 witness. -/
theorem C9_enhance_frame_witness :
    ∃ lit', (enhance_literature_with_extractions (fun _ => some "long enough content")
        (fun _ => ["rs1"]) [⟨"fr", [], "https://example.com"⟩])[0]? = some lit' ∧
      lit'.url = "https://example.com" ∧ lit'.functional_relevance = "fr" :=
  (C9_enhance_frame (fun _ => some "long enough content") (fun _ => ["rs1"])
    [⟨"fr", [], "https://example.com"⟩]).2 0 ⟨"fr", [], "https://example.com"⟩ rfl

/-! ### Claim C7 — the Mention Extractor -/

/-- C7: `extract_mutants` never propagates an exception (all oracle
outcomes, including `raises`, are mapped to a value) and returns `[]` when
the input is empty or shorter than 10 characters (for every oracle, so the
underlying call cannot influence — i.e. is not invoked on — such inputs),
when the call raises, and when the call returns an absent or non-list
value. -/
theorem C7_extract_mutants_guards (call : String → NerOutcome) (text : String) :
    (text.length < 10 → ∀ call' : String → NerOutcome, extract_mutants call' text = []) ∧
      (call (pyTrunc text 2000) = .raises → extract_mutants call text = []) ∧
      (call (pyTrunc text 2000) = .absent → extract_mutants call text = []) ∧
      (call (pyTrunc text 2000) = .nonList → extract_mutants call text = []) := by
  refine ⟨?_, ?_, ?_, ?_⟩
  · intro hlen call'
    simp [extract_mutants, Or.inr hlen]
  all_goals
    intro h
    unfold extract_mutants
    split
    · rfl
    · rw [h]

/-- C7 witness. -/
theorem C7_extract_mutants_guards_witness :
    extract_mutants (fun _ => .raises) "short" = [] :=
  ((C7_extract_mutants_guards (fun _ => .raises) "short").1 (by decide)
    (fun _ => .raises))

/-! ### Claims C5, C6 — retrieval result shape -/

theorem selCheck_shape (o : Option String) (r : String) (h : selCheck o = some r) :
    ∃ s, r = pyTrunc s 2000 := by
  unfold selCheck at h
  split at h
  · cases h
  · split at h
    · exact ⟨_, (Option.some.inj h).symm⟩
    · cases h

theorem metaCheck_shape (o : Option String) (r : String) (h : metaCheck o = some r) :
    ∃ s, r = pyTrunc s 2000 := by
  unfold metaCheck at h
  split at h
  · cases h
  · split at h
    · cases h
    · exact ⟨_, (Option.some.inj h).symm⟩

theorem scrapeFallback_shape (ps : List Para) (r : String)
    (h : scrapeFallback ps = some r) : ∃ s, r = pyTrunc s 2000 := by
  induction ps with
  | nil => cases h
  | cons p ps ih =>
    unfold scrapeFallback at h
    split at h
    · exact ⟨p.text, (Option.some.inj h).symm⟩
    · exact ih h

theorem trySelectors_shape (soup : ScrapeSoup) (r : String)
    (h : trySelectors soup = some r) : ∃ s, r = pyTrunc s 2000 := by
  unfold trySelectors at h
  split at h
  · rename_i r' heq
    cases h
    exact selCheck_shape _ _ heq
  · split at h
    · rename_i r' heq
      cases h
      exact selCheck_shape _ _ heq
    · split at h
      · rename_i r' heq
        cases h
        exact selCheck_shape _ _ heq
      · split at h
        · rename_i r' heq
          cases h
          exact selCheck_shape _ _ heq
        · exact metaCheck_shape _ _ h

theorem fetch_via_web_scrape_shape (soup : ScrapeSoup) (r : String)
    (h : fetch_via_web_scrape soup = some r) : ∃ s, r = pyTrunc s 2000 := by
  unfold fetch_via_web_scrape at h
  split at h
  · rename_i r' heq
    cases h
    exact trySelectors_shape _ _ heq
  · exact scrapeFallback_shape _ _ h

/-- C5: every non-absent string returned by the structured retrieval parse
or by the generic scraping strategy has length at most 2000. -/
theorem C5_result_bounded :
    (∀ segs r, fetch_pubmed_abstract segs = some r → r.length ≤ 2000) ∧
      (∀ soup r, fetch_via_web_scrape soup = some r → r.length ≤ 2000) := by
  constructor
  · intro segs r h
    unfold fetch_pubmed_abstract at h
    split at h
    · cases h
    · rw [← Option.some.inj h]
      exact pyTrunc_length_le _ 2000
  · intro soup r h
    obtain ⟨s, rfl⟩ := fetch_via_web_scrape_shape soup r h
    exact pyTrunc_length_le s 2000

/-- C5 witness. -/
theorem C5_result_bounded_witness :
    ("hello world" : String).length ≤ 2000 ∧ ("meta description" : String).length ≤ 2000 :=
  ⟨C5_result_bounded.1 [⟨"", "hello world"⟩] "hello world" (by decide),
   C5_result_bounded.2 ⟨none, none, none, none, some "meta description", []⟩
     "meta description" (by decide)⟩

/-- C6: in the structured retrieval parse, a segment with a non-empty label
`L` and text `T` is emitted as `L: T`, an unlabeled segment as its text
alone, segments are space-joined in document order and truncated to 2000
characters, and zero segments yield an absent result. -/
theorem C6_pubmed_join (l1 t1 l2 t2 : String) (h1 : l1 ≠ "") (h2 : l2 ≠ "") :
    fetch_pubmed_abstract [⟨l1, t1⟩, ⟨l2, t2⟩] =
        some (pyTrunc (l1 ++ ": " ++ pyStrip t1 ++ " " ++ (l2 ++ ": " ++ pyStrip t2)) 2000) ∧
      (∀ t : String, fetch_pubmed_abstract [⟨"", t⟩] = some (pyTrunc (pyStrip t) 2000)) ∧
      fetch_pubmed_abstract ([] : List AbstractSeg) = none := by
  refine ⟨?_, ?_, rfl⟩
  · simp [fetch_pubmed_abstract, segPart, pyJoin, h1, h2]
  · intro t
    simp [fetch_pubmed_abstract, segPart, pyJoin]

/-- C6 witness (Scenario D of the spec). -/
theorem C6_pubmed_join_witness :
    fetch_pubmed_abstract [⟨"BACKGROUND", "text1"⟩, ⟨"RESULTS", "text2"⟩] =
      some "BACKGROUND: text1 RESULTS: text2" :=
  ((C6_pubmed_join "BACKGROUND" "text1" "RESULTS" "text2" (by decide) (by decide)).1).trans
    (by decide)

/-! ### Claims C10, C3 — the generic scraping strategy -/

/-- C10: a div/section/p element matched by a class or id selector yields a
result only when its text is strictly longer than 100 characters — a
shorter match is skipped and the search continues with later selectors and
the fallback — whereas a matched meta tag's content is returned at any
non-empty length, so the same short text is returned via the meta tag but
not via a matched element. -/
theorem C10_selector_length_filter (s t : String) (hne : s ≠ "")
    (hshort : s.length ≤ 100) (hlong : t.length > 100) :
    fetch_via_web_scrape ⟨some s, none, none, none, none, []⟩ = none ∧
      fetch_via_web_scrape ⟨none, none, none, none, some s, []⟩ = some s ∧
      fetch_via_web_scrape ⟨some s, none, none, none, some s, []⟩ = some s ∧
      fetch_via_web_scrape ⟨some t, none, none, none, none, []⟩ = some (pyTrunc t 2000) := by
  have hnotlong : ¬ (s.length > 100) := by omega
  refine ⟨?_, ?_, ?_, ?_⟩ <;>
    simp [fetch_via_web_scrape, trySelectors, selCheck, metaCheck, scrapeFallback,
      hnotlong, hne, hlong, pyTrunc_of_length_le s 2000 (by omega)]

/-- C10 witness. -/
theorem C10_selector_length_filter_witness :
    fetch_via_web_scrape ⟨none, none, none, none, some "Short abstract.", []⟩ =
      some "Short abstract." :=
  (C10_selector_length_filter "Short abstract." (List.replicate 120 'x').asString
    (by decide) (by decide) (by decide)).2.1

theorem scrapeFallback_eq_find (ps : List Para) :
    scrapeFallback ps = (ps.find? paraMatch).map (fun p => pyTrunc p.text 2000) := by
  induction ps with
  | nil => rfl
  | cons p ps ih =>
    by_cases h : paraMatch p
    · simp [scrapeFallback, List.find?_cons_of_pos, h]
    · simp [scrapeFallback, List.find?_cons_of_neg, h, ih]

/-- C3 counterexample: a page with no selector match whose first paragraph
has 120 characters of text and class attribute `Abstract` — so the word
"abstract" occurs case-insensitively in its own class attribute — is
rejected by the fallback scan (the code's membership tests are
case-sensitive), contradicting the claim that such a paragraph is still
accepted. -/
theorem C3_fallback_case_counterexample :
    ((⟨(List.replicate 120 'x').asString, ["Abstract"], []⟩ : Para).text.length > 100 ∧
      isInfixB "abstract".toList
        ((pyStrList (["Abstract"] : List String)).toList.map Char.toLower) = true) ∧
      fetch_via_web_scrape ⟨none, none, none, none, none,
        [⟨(List.replicate 120 'x').asString, ["Abstract"], []⟩]⟩ = none := by
  decide

/-- C3 (amended): when no priority selector yields content, the fallback
scans only the first 5 paragraph elements and returns (truncated to 2000)
the text of the first paragraph longer than 100 characters whose own class
attribute contains the exact lowercase token "abstract" or whose parent's
class attribute string contains the lowercase substring "abstract" — both
tests case-sensitive, so a paragraph whose only occurrence of the word is
in a different letter case is not accepted. -/
theorem C3_fallback_scan (soup : ScrapeSoup) (hsel : trySelectors soup = none) :
    fetch_via_web_scrape soup =
        ((soup.paragraphs.take 5).find? paraMatch).map (fun p => pyTrunc p.text 2000) ∧
      ∀ p : Para, paraMatch p = true ↔
        (p.text.length > 100 ∧
          ("abstract" ∈ p.classes ∨
            isInfixB "abstract".toList (pyStrList p.parentClasses).toList = true)) := by
  constructor
  · simp [fetch_via_web_scrape, hsel, scrapeFallback_eq_find]
  · intro p
    simp [paraMatch]

/-- C3 witness. -/
theorem C3_fallback_scan_witness :
    fetch_via_web_scrape ⟨none, none, none, none, none,
        [⟨(List.replicate 120 'y').asString, ["abstract"], []⟩]⟩ =
      some (List.replicate 120 'y').asString :=
  ((C3_fallback_scan ⟨none, none, none, none, none,
      [⟨(List.replicate 120 'y').asString, ["abstract"], []⟩]⟩ (by decide)).1).trans
    (by decide)

/-! ### Claim C4 — identifier resolution -/

theorem isPrefixOf_append_self (lit rest : List Char) :
    lit.isPrefixOf (lit ++ rest) = true := by
  induction lit with
  | nil => simp [List.isPrefixOf]
  | cons c cs ih => simp [List.isPrefixOf, ih]

theorem reSearch_cons (lit : List Char) (c : Char) (cs : List Char) :
    reSearch lit (c :: cs) = match tryAt lit (c :: cs) with
      | some ds => some ds
      | none => reSearch lit cs := rfl

theorem takeWhile_digits (d r : List Char) (h2 : ∀ c ∈ d, c.isDigit)
    (hr : r.takeWhile Char.isDigit = []) : (d ++ r).takeWhile Char.isDigit = d := by
  induction d with
  | nil => simpa using hr
  | cons c cs ih =>
    simp only [List.cons_append, List.takeWhile_cons]
    rw [h2 c (by simp)]
    simp [ih (fun x hx => h2 x (by simp [hx]))]

theorem tryAt_of_digits (lit s d : List Char) (hs : s.takeWhile Char.isDigit = d)
    (hne : d ≠ []) : tryAt lit (lit ++ s) = some d := by
  unfold tryAt
  rw [isPrefixOf_append_self]
  rw [if_pos rfl, List.drop_left, hs]
  cases d with
  | nil => exact absurd rfl hne
  | cons c cs => rfl

theorem tryAt_of_not_prefixOf (lit s : List Char) (h : lit.isPrefixOf s = false) :
    tryAt lit s = none := by
  unfold tryAt
  rw [h]
  simp

theorem reSearch_of_tryAt_some (lit s ds : List Char) (h : tryAt lit s = some ds) :
    reSearch lit s = some ds := by
  cases s with
  | nil => simpa [reSearch] using h
  | cons c cs => simp [reSearch, h]

theorem reSearch_digits_skip (lit : List Char) (c₀ : Char) (hlit : lit.head? = some c₀)
    (hc₀ : c₀.isDigit = false) (s t : List Char) (hs : ∀ c ∈ s, c.isDigit) :
    reSearch lit (s ++ t) = reSearch lit t := by
  induction s with
  | nil => rfl
  | cons c cs ih =>
    have hpre : lit.isPrefixOf (c :: (cs ++ t)) = false := by
      cases lit with
      | nil => cases hlit
      | cons l ls =>
        have hl : l = c₀ := by
          simpa using hlit
        subst hl
        have hcc : (l == c) = false := by
          rw [beq_eq_false_iff_ne]
          intro hEq
          rw [hEq] at hc₀
          rw [hs c (by simp)] at hc₀
          cases hc₀
        simp [List.isPrefixOf, hcc]
    have htry := tryAt_of_not_prefixOf lit (c :: (cs ++ t)) hpre
    rw [List.cons_append, reSearch_cons, htry]
    exact ih (fun x hx => hs x (List.mem_cons_of_mem c hx))

/-- C4: a URL in any of the four known literature-database path shapes
(standard article view, legacy view, mobile view, bare `/pubmed/` path)
with a numeric accession resolves to exactly that numeric string — also
when the accession is embedded mid-path (trailing slash, query string) —
while a DOI-style URL and a generic journal URL resolve to absent. -/
theorem C4_extract_pmid_resolution (d : List Char) (hne : d ≠ [])
    (hdig : ∀ c ∈ d, c.isDigit) :
    extract_pmid ("https://pubmed.ncbi.nlm.nih.gov/" ++ d.asString ++ "/") = some d.asString ∧
      extract_pmid ("https://www.ncbi.nlm.nih.gov/pubmed/" ++ d.asString) = some d.asString ∧
      extract_pmid ("https://www.ncbi.nlm.nih.gov/m/pubmed/" ++ d.asString ++ "/") =
        some d.asString ∧
      extract_pmid ("https://journals.example.org/pubmed/" ++ d.asString ++ "?report=docsum") =
        some d.asString ∧
      extract_pmid "https://doi.org/10.1038/nature12345" = none ∧
      extract_pmid "https://www.nature.com/articles/nature12345" = none := by
  have hslash : ("/".toList).takeWhile Char.isDigit = [] := rfl
  have hquery : ("?report=docsum".toList).takeWhile Char.isDigit = [] := rfl
  have hdigits_slash : (d ++ "/".toList).takeWhile Char.isDigit = d :=
    takeWhile_digits d "/".toList hdig hslash
  have hdigits_nil : d.takeWhile Char.isDigit = d :=
    List.takeWhile_eq_self_iff.mpr hdig
  have hdigits_query : (d ++ "?report=docsum".toList).takeWhile Char.isDigit = d :=
    takeWhile_digits d "?report=docsum".toList hdig hquery
  refine ⟨?_, ?_, ?_, ?_, by decide, by decide⟩
  · -- standard view: pattern 1 matches at offset 8
    have h1 : reSearch pmidPat1
        ("https://pubmed.ncbi.nlm.nih.gov/" ++ d.asString ++ "/").toList = some d := by
      have hstep : reSearch pmidPat1
          ("https://pubmed.ncbi.nlm.nih.gov/" ++ d.asString ++ "/").toList
          = reSearch pmidPat1 (pmidPat1 ++ (d ++ "/".toList)) := rfl
      rw [hstep]
      exact reSearch_of_tryAt_some _ _ _
        (tryAt_of_digits pmidPat1 (d ++ "/".toList) d hdigits_slash hne)
    simp only [extract_pmid, h1]
  · -- legacy view: pattern 1 misses, pattern 2 matches at offset 12
    have h1 : reSearch pmidPat1
        ("https://www.ncbi.nlm.nih.gov/pubmed/" ++ d.asString).toList = none := by
      calc reSearch pmidPat1 ("https://www.ncbi.nlm.nih.gov/pubmed/" ++ d.asString).toList
          = reSearch pmidPat1 d := rfl
        _ = reSearch pmidPat1 (d ++ []) := by rw [List.append_nil]
        _ = reSearch pmidPat1 [] := reSearch_digits_skip pmidPat1 'p' rfl rfl d [] hdig
        _ = none := rfl
    have h2 : reSearch pmidPat2
        ("https://www.ncbi.nlm.nih.gov/pubmed/" ++ d.asString).toList = some d := by
      have hstep : reSearch pmidPat2 ("https://www.ncbi.nlm.nih.gov/pubmed/" ++ d.asString).toList
          = reSearch pmidPat2 (pmidPat2 ++ d) := rfl
      rw [hstep]
      exact reSearch_of_tryAt_some _ _ _ (tryAt_of_digits pmidPat2 d d hdigits_nil hne)
    simp only [extract_pmid, h1, h2]
  · -- mobile view: patterns 1 and 2 miss, pattern 3 matches at offset 12
    have h1 : reSearch pmidPat1
        ("https://www.ncbi.nlm.nih.gov/m/pubmed/" ++ d.asString ++ "/").toList = none := by
      calc reSearch pmidPat1 ("https://www.ncbi.nlm.nih.gov/m/pubmed/" ++ d.asString ++ "/").toList
          = reSearch pmidPat1 (d ++ "/".toList) := rfl
        _ = reSearch pmidPat1 "/".toList :=
            reSearch_digits_skip pmidPat1 'p' rfl rfl d "/".toList hdig
        _ = none := rfl
    have h2 : reSearch pmidPat2
        ("https://www.ncbi.nlm.nih.gov/m/pubmed/" ++ d.asString ++ "/").toList = none := by
      calc reSearch pmidPat2 ("https://www.ncbi.nlm.nih.gov/m/pubmed/" ++ d.asString ++ "/").toList
          = reSearch pmidPat2 (d ++ "/".toList) := rfl
        _ = reSearch pmidPat2 "/".toList :=
            reSearch_digits_skip pmidPat2 'n' rfl rfl d "/".toList hdig
        _ = none := rfl
    have h3 : reSearch pmidPat3
        ("https://www.ncbi.nlm.nih.gov/m/pubmed/" ++ d.asString ++ "/").toList = some d := by
      have hstep : reSearch pmidPat3
          ("https://www.ncbi.nlm.nih.gov/m/pubmed/" ++ d.asString ++ "/").toList
          = reSearch pmidPat3 (pmidPat3 ++ (d ++ "/".toList)) := rfl
      rw [hstep]
      exact reSearch_of_tryAt_some _ _ _
        (tryAt_of_digits pmidPat3 (d ++ "/".toList) d hdigits_slash hne)
    simp only [extract_pmid, h1, h2, h3]
  · -- bare /pubmed/ path on another host, accession followed by a query string
    have h1 : reSearch pmidPat1
        ("https://journals.example.org/pubmed/" ++ d.asString ++ "?report=docsum").toList =
          none := by
      calc reSearch pmidPat1
            ("https://journals.example.org/pubmed/" ++ d.asString ++ "?report=docsum").toList
          = reSearch pmidPat1 (d ++ "?report=docsum".toList) := rfl
        _ = reSearch pmidPat1 "?report=docsum".toList :=
            reSearch_digits_skip pmidPat1 'p' rfl rfl d "?report=docsum".toList hdig
        _ = none := rfl
    have h2 : reSearch pmidPat2
        ("https://journals.example.org/pubmed/" ++ d.asString ++ "?report=docsum").toList =
          none := by
      calc reSearch pmidPat2
            ("https://journals.example.org/pubmed/" ++ d.asString ++ "?report=docsum").toList
          = reSearch pmidPat2 (d ++ "?report=docsum".toList) := rfl
        _ = reSearch pmidPat2 "?report=docsum".toList :=
            reSearch_digits_skip pmidPat2 'n' rfl rfl d "?report=docsum".toList hdig
        _ = none := rfl
    have h3 : reSearch pmidPat3
        ("https://journals.example.org/pubmed/" ++ d.asString ++ "?report=docsum").toList =
          none := by
      calc reSearch pmidPat3
            ("https://journals.example.org/pubmed/" ++ d.asString ++ "?report=docsum").toList
          = reSearch pmidPat3 (d ++ "?report=docsum".toList) := rfl
        _ = reSearch pmidPat3 "?report=docsum".toList :=
            reSearch_digits_skip pmidPat3 'n' rfl rfl d "?report=docsum".toList hdig
        _ = none := rfl
    have h4 : reSearch pmidPat4
        ("https://journals.example.org/pubmed/" ++ d.asString ++ "?report=docsum").toList =
          some d := by
      have hstep : reSearch pmidPat4
          ("https://journals.example.org/pubmed/" ++ d.asString ++ "?report=docsum").toList
          = reSearch pmidPat4 (pmidPat4 ++ (d ++ "?report=docsum".toList)) := rfl
      rw [hstep]
      exact reSearch_of_tryAt_some _ _ _
        (tryAt_of_digits pmidPat4 (d ++ "?report=docsum".toList) d hdigits_query hne)
    simp only [extract_pmid, h1, h2, h3, h4]

/-- C4 witness. -/
theorem C4_extract_pmid_resolution_witness :
    extract_pmid "https://pubmed.ncbi.nlm.nih.gov/26366551/" = some "26366551" := by
  have h := (C4_extract_pmid_resolution "26366551".toList (by decide) (by decide)).1
  rw [show ("https://pubmed.ncbi.nlm.nih.gov/" ++ ("26366551".toList).asString ++ "/")
      = "https://pubmed.ncbi.nlm.nih.gov/26366551/" from by decide] at h
  rw [show (("26366551".toList).asString) = "26366551" from by decide] at h
  exact h
